import Mathlib

/-!
Shallow embedding of the vLLM-Ray-Bench cluster core:

* `src/vllm_cluster/config/config_manager.py` — `NodeConfig`, `ClusterConfig`,
  `ConfigManager._auto_configure_distributed`,
  `ConfigManager._calculate_optimal_parallelism`;
* `src/vllm_cluster/config/validator.py` — `ConfigValidator` and all of its
  `_validate_*` check groups, `_is_valid_ip`;
* `src/vllm_cluster/core/cluster.py` — `ClusterManager.scale_cluster`,
  `ClusterManager.shutdown`.

Python `int` is modelled as `Int` (`//` as `Int.fdiv`, floor division), the
`float` field `gpu_memory_utilization` as `ℚ` (the validator only compares it
against decimal literals, it performs no float arithmetic), Python strings as
`String`, `None`-able fields as `Option`, and dicts with insertion order as
association lists.  Log statements carry no control flow and are dropped,
except where a claim is about a logged warning: there the warning is part of
the function's result (an explicit `Bool` flag) so the claim can mention it.
-/

namespace VllmCluster

/-- `NodeConfig` from `config_manager.py`: ip, gpus, cpus, memory, optional port. -/
structure NodeConfig where
  ip : String
  gpus : Int
  cpus : Int
  memory : String
  port : Option Int := none
deriving DecidableEq, Repr

/-- `ClusterConfig` from `config_manager.py`, restricted to the fields that the
validator, the resolver and `scale_cluster` read.  Defaults mirror the
dataclass defaults. -/
structure ClusterConfig where
  cluster_name : String := "vllm-cluster"
  max_concurrent_requests : Int := 32
  model_name : String := "Qwen/Qwen3-32B"
  max_model_len : Int := 32768
  gpu_memory_utilization : ℚ := mkRat 4 5  -- the dataclass default 0.80
  swap_space : Int := 8
  tensor_parallel_size : Option Int := none
  pipeline_parallel_size : Option Int := none
  distributed_strategy : String := "auto"
  head_node : Option NodeConfig := none
  worker_nodes : List NodeConfig := []
  service_port : Int := 8000
  max_num_seqs : Int := 16
  use_default_nccl : Bool := true
  nccl_custom_env : List (String × String) := []
deriving DecidableEq, Repr

/-- The two per-severity lists `self.errors` / `self.warnings` that the
validator methods append to. -/
structure Findings where
  errors : List String
  warnings : List String
deriving DecidableEq, Repr

instance : Append Findings :=
  ⟨fun a b => ⟨a.errors ++ b.errors, a.warnings ++ b.warnings⟩⟩

def Findings.none : Findings := ⟨[], []⟩

def Findings.error (msg : String) : Findings := ⟨[msg], []⟩

def Findings.warning (msg : String) : Findings := ⟨[], [msg]⟩

/-! ### Python `int(...)` parsing, used by `_is_valid_ip`

`int(part)` strips surrounding whitespace, allows one optional sign, and
allows single underscores between digits; anything else raises `ValueError`
(modelled as `Option.none`). -/

/-- Digit tail of Python `int`: digits, with single underscores allowed
between two digits. -/
def pyDigitsAux (acc : Nat) : List Char → Option Nat
  | [] => some acc
  | '_' :: c :: cs =>
    if c.isDigit then pyDigitsAux (acc * 10 + (c.toNat - 48)) cs else Option.none
  | c :: cs =>
    if c.isDigit then pyDigitsAux (acc * 10 + (c.toNat - 48)) cs else Option.none

/-- Nonempty Python digit string (underscore-grouped) to its value. -/
def pyDigits : List Char → Option Nat
  | c :: cs => if c.isDigit then pyDigitsAux (c.toNat - 48) cs else Option.none
  | [] => Option.none

/-- Python `int(s)` on a character list: surrounding whitespace stripped,
one optional sign, then digits. `none` models a raised `ValueError`. -/
def pyIntList (cs : List Char) : Option Int :=
  let t := ((cs.dropWhile Char.isWhitespace).reverse.dropWhile
      Char.isWhitespace).reverse
  match t with
  | '+' :: rest => (pyDigits rest).map (fun n => (n : Int))
  | '-' :: rest => (pyDigits rest).map (fun n => -(n : Int))
  | _ => (pyDigits t).map (fun n => (n : Int))

/-- Python `int(s)` for a decimal string. -/
def pyInt (s : String) : Option Int := pyIntList s.toList

/-- Python `str.split(sep)` for a one-character separator (how
`ip.split('.')` splits): every maximal run between separators, with empty
runs kept. -/
def splitOnChar (sep : Char) : List Char → List (List Char)
  | [] => [[]]
  | c :: cs =>
    let rest := splitOnChar sep cs
    if c = sep then [] :: rest
    else
      match rest with
      | r :: rs => (c :: r) :: rs
      | [] => [[c]]

/-- `ConfigValidator._is_valid_ip`: split on `'.'`, require exactly 4 parts,
each parsing as a Python int in `[0, 255]`; a `ValueError` yields `False`. -/
def is_valid_ip (ip : String) : Bool :=
  let parts := splitOnChar '.' ip.toList
  if parts.length ≠ 4 then false
  else parts.all fun part =>
    match pyIntList part with
    | some num => decide (0 ≤ num) && decide (num ≤ 255)
    | Option.none => false

/-! ### The memory-format regex `^\d+GB$`

Python's `$` matches at the end of the string and also just before a
newline that is the string's last character.  `memFormatMatch` below is
the fully-anchored reading (digits, then `GB`, then nothing), which is
the exact-form test; `pyMemFormatMatch` is the faithful model of
`re.match(r'^\d+GB$', s)` including the trailing-newline acceptance, and
`memory_check_py` is the faithful model of the memory block built on it,
with the uncaught `ValueError` that the quirk makes reachable. -/

/-- The fully-anchored form: one or more decimal digits followed by the
literal `GB` and nothing else.  This is what `^\d+GB$` matches when the
string has no trailing newline. -/
def memFormatMatch (s : String) : Bool :=
  let cs := s.toList
  decide (3 ≤ cs.length) && (cs.take (cs.length - 2)).all Char.isDigit
    && decide (cs.drop (cs.length - 2) = ['G', 'B'])

/-- `memFormatMatch` on a bare character list. -/
def memFormatCore (cs : List Char) : Bool :=
  decide (3 ≤ cs.length) && (cs.take (cs.length - 2)).all Char.isDigit
    && decide (cs.drop (cs.length - 2) = ['G', 'B'])

/-- `re.match(r'^\d+GB$', s)` with Python anchor semantics: the pattern
matches the whole string, or the whole string minus a single trailing
newline (`$` matches just before a newline that ends the string). -/
def pyMemFormatMatch (s : String) : Bool :=
  memFormatCore s.toList ||
    (decide (s.toList.getLast? = some '\n') && memFormatCore s.toList.dropLast)

/-- Value of a decimal digit list (what `int` returns on the digits of a
matched memory string). -/
def digitsToNat (l : List Char) : Nat :=
  l.foldl (fun acc c => acc * 10 + (c.toNat - 48)) 0

/-- `int(node.memory[:-2])` for a memory string that matched the regex. -/
def memValue (s : String) : Int :=
  digitsToNat (s.toList.take (s.toList.length - 2))

/-! ### Validator messages

Messages are the exact f-strings of `validator.py`, written with `++` so the
interpolated numbers stay visible to the theorems. -/

def gpuMismatchMsg (total_gpus pipeline tensor expected : Int) : String :=
  "Total GPUs (" ++ toString total_gpus ++ ") doesn't match PP("
    ++ toString pipeline ++ ") * TP(" ++ toString tensor ++ ") = "
    ++ toString expected

def invalidIpMsg (node_name ip : String) : String :=
  node_name ++ ": Invalid IP address '" ++ ip ++ "'"

def memFormatMsg (node_name : String) : String :=
  node_name ++ ": Memory must be in format 'XXXGB' (e.g., '320GB')"

def lowMemMsg (node_name : String) (memory_gb : Int) : String :=
  node_name ++ ": " ++ toString memory_gb
    ++ "GB memory may be insufficient for large models"

def highMemMsg (node_name : String) (memory_gb : Int) : String :=
  node_name ++ ": " ++ toString memory_gb ++ "GB memory is unusually high"

/-! ### The validator's check groups -/

/-- `^[a-zA-Z0-9\-_]+$` on the cluster name, under the fully-anchored
reading (Python's `$` would also accept a name with one trailing newline;
that gap only moves a name such as `"abc\n"` between the name-error branch
and acceptance, and none of the aggregate properties proved below depend
on which branch an individual name takes). -/
def clusterNameMatch (s : String) : Bool :=
  !s.toList.isEmpty && s.toList.all fun c => c.isAlphanum || c = '-' || c = '_'

/-- `ConfigValidator._validate_cluster_config`. -/
def validate_cluster_config (config : ClusterConfig) : Findings :=
  let nameF :=
    if config.cluster_name = "" then
      Findings.error "Cluster name cannot be empty"
    else if !clusterNameMatch config.cluster_name then
      Findings.error
        "Cluster name can only contain alphanumeric characters, hyphens, and underscores"
    else Findings.none
  let mcrF :=
    if config.max_concurrent_requests ≤ 0 then
      Findings.error "max_concurrent_requests must be positive"
    else if config.max_concurrent_requests > 1000 then
      Findings.warning "max_concurrent_requests > 1000 may impact performance"
    else Findings.none
  nameF ++ mcrF

/-- `ConfigValidator._validate_model_config`. -/
def validate_model_config (config : ClusterConfig) : Findings :=
  let nameF :=
    if config.model_name = "" then Findings.error "Model name cannot be empty"
    else Findings.none
  let lenF :=
    if config.max_model_len ≤ 0 then
      Findings.error "max_model_len must be positive"
    else if config.max_model_len > 100000 then
      Findings.warning "max_model_len > 100k may cause memory issues"
    else Findings.none
  let utilF :=
    -- the float literals 0.1, 0.95, 0.9 written as exact rationals
    if ¬(mkRat 1 10 ≤ config.gpu_memory_utilization
        ∧ config.gpu_memory_utilization ≤ mkRat 19 20) then
      Findings.error "gpu_memory_utilization must be between 0.1 and 0.95"
    else if config.gpu_memory_utilization > mkRat 9 10 then
      Findings.warning "gpu_memory_utilization > 0.9 may cause out-of-memory errors"
    else Findings.none
  let swapF :=
    if config.swap_space < 0 then Findings.error "swap_space cannot be negative"
    else Findings.none
  nameF ++ lenF ++ utilF ++ swapF

/-- `ConfigValidator._validate_distributed_config`. -/
def validate_distributed_config (config : ClusterConfig) : Findings :=
  let stratF :=
    if config.distributed_strategy ≠ "auto"
        ∧ config.distributed_strategy ≠ "manual" then
      Findings.error "distributed_strategy must be 'auto' or 'manual'"
    else Findings.none
  let manualF :=
    if config.distributed_strategy = "manual"
        ∧ (config.tensor_parallel_size = Option.none
           ∨ config.pipeline_parallel_size = Option.none) then
      Findings.error
        "tensor_parallel_size and pipeline_parallel_size required for manual strategy"
    else Findings.none
  let tpF :=
    match config.tensor_parallel_size with
    | some t =>
      if t ≤ 0 then Findings.error "tensor_parallel_size must be positive"
      else if t > 8 then
        Findings.warning "tensor_parallel_size > 8 may not improve performance"
      else Findings.none
    | Option.none => Findings.none
  let ppF :=
    match config.pipeline_parallel_size with
    | some p =>
      if p ≤ 0 then Findings.error "pipeline_parallel_size must be positive"
      else Findings.none
    | Option.none => Findings.none
  stratF ++ manualF ++ tpF ++ ppF

/-- The memory-format block of `ConfigValidator._validate_node_config`,
under the fully-anchored reading of the regex (adequate for the aggregate
claims; see `memory_check_py` for the exact Python behaviour, which
differs only on memory strings ending in a newline). -/
def memory_check (node : NodeConfig) (node_name : String) : Findings :=
  if !memFormatMatch node.memory then
    Findings.error (memFormatMsg node_name)
  else
    let memory_gb := memValue node.memory
    if memory_gb < 32 then Findings.warning (lowMemMsg node_name memory_gb)
    else if memory_gb > 2048 then
      Findings.warning (highMemMsg node_name memory_gb)
    else Findings.none

/-- The memory block of `_validate_node_config`, faithful to Python: the
regex gate is `pyMemFormatMatch` (with the trailing-newline quirk of `$`),
and on a match `int(node.memory[:-2])` runs — `pyIntList` on all but the
last two characters.  That `int` call raises `ValueError` — modelled as
`Except.error ()` — exactly when those characters are not an integer
literal, which the regex gate lets through only via the trailing-newline
quirk (for example `"320GB\n"[:-2] = "320G"`).  The raise is caught
nowhere in the validator, so it propagates out of `validate` with no
finding and no verdict. -/
def memory_check_py (node : NodeConfig) (node_name : String) : Except Unit Findings :=
  if !pyMemFormatMatch node.memory then
    Except.ok (Findings.error (memFormatMsg node_name))
  else
    match pyIntList (node.memory.toList.take (node.memory.toList.length - 2)) with
    | Option.none => Except.error ()
    | some memory_gb =>
      if memory_gb < 32 then Except.ok (Findings.warning (lowMemMsg node_name memory_gb))
      else if memory_gb > 2048 then
        Except.ok (Findings.warning (highMemMsg node_name memory_gb))
      else Except.ok Findings.none

/-- `ConfigValidator._validate_node_config`. -/
def validate_node_config (node : NodeConfig) (node_name : String) : Findings :=
  let ipF :=
    if !is_valid_ip node.ip then
      Findings.error (invalidIpMsg node_name node.ip)
    else Findings.none
  let gpuF :=
    if node.gpus ≤ 0 then
      Findings.error (node_name ++ ": GPU count must be positive")
    else if node.gpus > 16 then
      Findings.warning (node_name ++ ": " ++ toString node.gpus
        ++ " GPUs is unusually high")
    else Findings.none
  let cpuF :=
    if node.cpus ≤ 0 then
      Findings.error (node_name ++ ": CPU count must be positive")
    else if node.cpus > 128 then
      Findings.warning (node_name ++ ": " ++ toString node.cpus
        ++ " CPUs is unusually high")
    else Findings.none
  let memF := memory_check node node_name
  let portF :=
    match node.port with
    | some p =>
      if ¬(1024 ≤ p ∧ p ≤ 65535) then
        Findings.error (node_name ++ ": Port must be between 1024 and 65535")
      else Findings.none
    | Option.none => Findings.none
  ipF ++ gpuF ++ cpuF ++ memF ++ portF

/-- The `for i, worker in enumerate(config.worker_nodes)` loop:
`_validate_node_config(worker, f"worker-{i}")` for each worker in order. -/
def validateWorkers : Nat → List NodeConfig → Findings
  | _, [] => Findings.none
  | i, w :: ws =>
    validate_node_config w ("worker-" ++ toString i) ++ validateWorkers (i + 1) ws

/-- Total GPU count `head.gpus + sum(worker.gpus)` used by the validator,
the resolver and `scale_cluster`. -/
def totalGpusOf (head : NodeConfig) (workers : List NodeConfig) : Int :=
  head.gpus + (workers.map NodeConfig.gpus).sum

/-- `ConfigValidator._validate_nodes_config`.  Note the early `return` when
no head node is configured: none of the remaining node checks run then. -/
def validate_nodes_config (config : ClusterConfig) : Findings :=
  match config.head_node with
  | Option.none => Findings.error "Head node configuration is required"
  | some head =>
    let headF := validate_node_config head "head"
    let workersF :=
      if config.worker_nodes = [] then
        Findings.warning "No worker nodes configured - running single-node cluster"
      else validateWorkers 0 config.worker_nodes
    let all_ips := head.ip :: config.worker_nodes.map NodeConfig.ip
    let dupF :=
      if all_ips.Nodup then Findings.none
      else Findings.error "Duplicate IP addresses found in node configurations"
    let total_gpus := totalGpusOf head config.worker_nodes
    let gpuF :=
      match config.tensor_parallel_size, config.pipeline_parallel_size with
      | some tp, some pp =>
        -- Python `if config.tensor_parallel_size and config.pipeline_parallel_size`
        -- is truthiness: a value of 0 skips the check.
        if tp ≠ 0 ∧ pp ≠ 0 then
          let expected_gpus := tp * pp
          if total_gpus ≠ expected_gpus then
            Findings.error (gpuMismatchMsg total_gpus pp tp expected_gpus)
          else Findings.none
        else Findings.none
      | _, _ => Findings.none
    headF ++ workersF ++ dupF ++ gpuF

/-- `ConfigValidator._validate_service_config`. -/
def validate_service_config (config : ClusterConfig) : Findings :=
  let portF :=
    if ¬(1024 ≤ config.service_port ∧ config.service_port ≤ 65535) then
      Findings.error "service_port must be between 1024 and 65535"
    else Findings.none
  let seqF :=
    if config.max_num_seqs ≤ 0 then
      Findings.error "max_num_seqs must be positive"
    else if config.max_num_seqs > 256 then
      Findings.warning "max_num_seqs > 256 may impact memory usage"
    else Findings.none
  portF ++ seqF

/-- `ConfigValidator._validate_network_config`. -/
def validate_network_config (config : ClusterConfig) : Findings :=
  let defF :=
    if !config.use_default_nccl ∧ config.nccl_custom_env = [] then
      Findings.warning "Custom NCCL enabled but no custom environment variables provided"
    else Findings.none
  let envF : Findings :=
    ⟨[], config.nccl_custom_env.filterMap fun kv =>
      if !("NCCL_".toList.isPrefixOf kv.1.toList) then
        some ("Non-NCCL environment variable '" ++ kv.1 ++ "' in nccl_custom_env")
      else Option.none⟩
  defF ++ envF

/-- One full `ConfigValidator.validate` pass: the six check groups in call
order, errors and warnings each concatenated in append order. -/
def validateFindings (config : ClusterConfig) : Findings :=
  validate_cluster_config config ++ validate_model_config config
    ++ validate_distributed_config config ++ validate_nodes_config config
    ++ validate_service_config config ++ validate_network_config config

/-- The mutable `ConfigValidator` instance: its `errors` and `warnings`
fields. -/
structure ConfigValidator where
  errors : List String := []
  warnings : List String := []
deriving DecidableEq, Repr

/-- `ConfigValidator.validate`: resets `self.errors`/`self.warnings`, runs
every check group, and returns `len(self.errors) == 0` together with the
instance's new state. -/
def ConfigValidator.validate (_self : ConfigValidator) (config : ClusterConfig) :
    ConfigValidator × Bool :=
  let f := validateFindings config
  (⟨f.errors, f.warnings⟩, f.errors.length == 0)

/-! ### The Auto resolver (`ConfigManager`) -/

/-- `ConfigManager._calculate_optimal_parallelism`.  Returns `(pp, tp, flag)`
where `flag` records whether the non-uniform-distribution warning was
logged (`logger.warning` on the `pp * tp != total_gpus` branch). -/
def calculate_optimal_parallelism (total_nodes total_gpus : Int) :
    Int × Int × Bool :=
  let gpus_per_node := Int.fdiv total_gpus total_nodes
  let pp_size := total_nodes
  let tp_size := gpus_per_node
  if pp_size * tp_size ≠ total_gpus then
    (pp_size, Int.fdiv total_gpus pp_size, true)
  else
    (pp_size, tp_size, false)

/-- `ConfigManager._auto_configure_distributed`.  Returns the updated config
and the non-uniform warning flag; with no head node it returns early,
unchanged. -/
def auto_configure_distributed (config : ClusterConfig) : ClusterConfig × Bool :=
  match config.head_node with
  | Option.none => (config, false)
  | some head =>
    let total_nodes : Int := 1 + config.worker_nodes.length
    let total_gpus := totalGpusOf head config.worker_nodes
    let r := calculate_optimal_parallelism total_nodes total_gpus
    let pp_size := r.1
    let tp_size := r.2.1
    let c1 :=
      if config.tensor_parallel_size = Option.none then
        { config with tensor_parallel_size := some tp_size }
      else config
    let c2 :=
      if c1.pipeline_parallel_size = Option.none then
        { c1 with pipeline_parallel_size := some pp_size }
      else c1
    (c2, r.2.2)

/-! ### `ClusterManager.scale_cluster` (`core/cluster.py`)

The `new_worker_nodes` argument is a list of plain dicts; the loop reads the
keys `"ip"`, `"gpus"`, `"cpus"`, `"memory"` of each, so a missing key raises
`KeyError`, which the surrounding `try`/`except` turns into `return False` —
with the nodes appended before the failure still in `self.config`.
`_wait_for_nodes` only polls `ray` and logs; it mutates no configuration
state and is modelled as a no-op. -/

structure NodeDict where
  ip : Option String := Option.none
  gpus : Option Int := Option.none
  cpus : Option Int := Option.none
  memory : Option String := Option.none
deriving DecidableEq, Repr

/-- A complete dict, convertible to the `NodeConfig` the loop builds. -/
def NodeDict.complete (d : NodeDict) : Prop :=
  d.ip ≠ Option.none ∧ d.gpus ≠ Option.none ∧ d.cpus ≠ Option.none
    ∧ d.memory ≠ Option.none

instance (d : NodeDict) : Decidable d.complete := by
  unfold NodeDict.complete; infer_instance

def NodeDict.toNodeConfig (d : NodeDict) : NodeConfig :=
  ⟨d.ip.getD "", d.gpus.getD 0, d.cpus.getD 0, d.memory.getD "", Option.none⟩

/-- The `for node_data in new_worker_nodes` loop of `scale_cluster`: each
complete dict is appended to `config.worker_nodes`; the first missing key
raises, leaving the nodes appended so far in place and returning failure. -/
def scaleLoop : ClusterConfig → List NodeDict → ClusterConfig × Bool
  | config, [] => (config, true)
  | config, d :: ds =>
    match d.ip, d.gpus, d.cpus, d.memory with
    | some ip, some gpus, some cpus, some memory =>
      scaleLoop
        { config with
            worker_nodes := config.worker_nodes ++ [⟨ip, gpus, cpus, memory, Option.none⟩] }
        ds
    | _, _, _, _ => (config, false)

/-- `ClusterManager.scale_cluster`: appends the new nodes, recomputes the
parallelism sizes when `distributed_strategy == "auto"`, waits for the nodes
to join, and returns `True`; any exception is caught and turns into
`False`, with all mutations made before the exception retained. -/
def scale_cluster (config : ClusterConfig) (new_worker_nodes : List NodeDict) :
    ClusterConfig × Bool :=
  let r := scaleLoop config new_worker_nodes
  let c1 := r.1
  if !r.2 then (c1, false)
  else
    match c1.head_node with
    | Option.none =>
      -- `self.config.head_node.gpus` raises `AttributeError` on `None`;
      -- caught by the `except`, so the appended nodes stay.
      (c1, false)
    | some head =>
      let total_nodes : Int := 1 + c1.worker_nodes.length
      let total_gpus := totalGpusOf head c1.worker_nodes
      let c2 :=
        if c1.distributed_strategy = "auto" then
          { c1 with
              pipeline_parallel_size := some total_nodes,
              tensor_parallel_size := some (Int.fdiv total_gpus total_nodes) }
        else c1
      (c2, true)

/-! ### `ClusterManager.shutdown` (`core/cluster.py`)

State observable to the claim: whether `self.service_handle` is set, the
`self._cluster_initialized` flag, and the ambient runtime facts
`ray.is_initialized()` and whether Ray Serve is up.  The two teardown calls
`serve.shutdown()` and `ray.shutdown()` may raise; the whole body sits in a
single `try`, whose `except` only logs — so a raise skips every later
statement of the body but propagates nothing to the caller.  The failure
injections `serve_shutdown_fails` / `ray_shutdown_fails` model those raises. -/

structure ManagerState where
  service_handle : Bool
  cluster_initialized : Bool
  ray_up : Bool
  serve_up : Bool
deriving DecidableEq, Repr

/-- `ClusterManager.shutdown`, with explicit failure injection for the two
teardown calls.  The function is total: the `except` clause swallows every
exception, so `shutdown` never raises toward its caller. -/
def shutdown (s : ManagerState) (serve_shutdown_fails ray_shutdown_fails : Bool) :
    ManagerState :=
  if s.service_handle ∧ serve_shutdown_fails then
    -- `serve.shutdown()` raised: the except block runs, nothing else does.
    s
  else
    let s1 := if s.service_handle then { s with serve_up := false } else s
    if s1.ray_up ∧ ray_shutdown_fails then
      -- `ray.shutdown()` raised: the flag resets below never run.
      s1
    else
      let s2 := if s1.ray_up then { s1 with ray_up := false } else s1
      { s2 with cluster_initialized := false, service_handle := false }

/-! ### Concrete configurations used by the closed theorems -/

/-- A single-node configuration that passes validation: head `192.168.1.1`
with 8 GPUs, `PP=1 * TP=8 = 8` GPUs. -/
def headOk : NodeConfig := ⟨"192.168.1.1", 8, 32, "320GB", some 6379⟩

def cfgOkBase : ClusterConfig :=
  { tensor_parallel_size := some 8
    pipeline_parallel_size := some 1
    head_node := some headOk }

/-- A new-worker dict whose address duplicates the head of `cfgOkBase`. -/
def dupDict : NodeDict :=
  { ip := some "192.168.1.1", gpus := some 8, cpus := some 32, memory := some "320GB" }

/-- A new-worker dict with a fresh address. -/
def freshDict : NodeDict :=
  { ip := some "192.168.1.2", gpus := some 8, cpus := some 32, memory := some "320GB" }

def headC2 : NodeConfig := ⟨"192.168.1.1", 8, 32, "320GB", some 6379⟩

/-- Auto strategy, no parallelism fields, head 8 GPUs + one worker 8 GPUs. -/
def cfgC2w : ClusterConfig :=
  { head_node := some headC2
    worker_nodes := [⟨"192.168.1.2", 8, 32, "320GB", Option.none⟩] }

def headC3 : NodeConfig := ⟨"192.168.1.1", 4, 32, "320GB", some 6379⟩

/-- Partial override: `pipeline_parallel_size = 2` supplied, tensor unset;
3 nodes with 4 GPUs each (12 GPUs total). -/
def cfgC3 : ClusterConfig :=
  { pipeline_parallel_size := some 2
    head_node := some headC3
    worker_nodes := [⟨"192.168.1.2", 4, 32, "320GB", Option.none⟩,
      ⟨"192.168.1.3", 4, 32, "320GB", Option.none⟩] }

/-- No head node, two workers sharing one address, `PP*TP = 4` against
16 worker GPUs: every node check after the missing-head error is skipped. -/
def cfgC5 : ClusterConfig :=
  { tensor_parallel_size := some 2
    pipeline_parallel_size := some 2
    head_node := Option.none
    worker_nodes := [⟨"1.1.1.1", 8, 32, "320GB", Option.none⟩,
      ⟨"1.1.1.1", 8, 32, "320GB", Option.none⟩] }

def headC5w : NodeConfig := ⟨"1.1.1.1", 8, 32, "320GB", some 6379⟩

/-- Head present, worker duplicating the head address, and a GPU-count
mismatch (`2*2 = 4` against 16 GPUs). -/
def cfgC5w : ClusterConfig :=
  { tensor_parallel_size := some 2
    pipeline_parallel_size := some 2
    head_node := some headC5w
    worker_nodes := [⟨"1.1.1.1", 8, 32, "320GB", Option.none⟩] }

/-- Both parallelism fields set, `tensor_parallel_size = 0` (falsy in
Python), product `0*5 = 0` differs from the 8 GPUs present. -/
def cfgC6a : ClusterConfig :=
  { tensor_parallel_size := some 0
    pipeline_parallel_size := some 5
    head_node := some headOk }

/-- Both parallelism fields set and mismatched, but no head node. -/
def cfgC6b : ClusterConfig :=
  { tensor_parallel_size := some 2
    pipeline_parallel_size := some 2
    head_node := Option.none
    worker_nodes := [⟨"10.0.0.2", 3, 32, "320GB", Option.none⟩] }

def headC6w : NodeConfig := ⟨"192.168.1.1", 8, 32, "320GB", some 6379⟩

/-- The spec's example: Manual strategy, `pipeline=3, tensor=4`, topology
totals 10 GPUs. -/
def cfgC6w : ClusterConfig :=
  { tensor_parallel_size := some 4
    pipeline_parallel_size := some 3
    distributed_strategy := "manual"
    head_node := some headC6w
    worker_nodes := [⟨"192.168.1.2", 2, 32, "320GB", Option.none⟩] }

def headC8 : NodeConfig := ⟨"localhost", 8, 32, "320GB", some 6379⟩

/-- A configuration whose head address is the host name `localhost`. -/
def cfgC8 : ClusterConfig :=
  { tensor_parallel_size := some 8
    pipeline_parallel_size := some 1
    head_node := some headC8 }

def nodeGiB : NodeConfig := ⟨"192.168.1.1", 8, 32, "320GiB", Option.none⟩

def node16 : NodeConfig := ⟨"192.168.1.1", 8, 32, "16GB", Option.none⟩

/-- A node whose memory string carries one trailing newline: the Python
regex `^\d+GB$` accepts it, and `int("320G")` then raises. -/
def nodeNL : NodeConfig := ⟨"192.168.1.1", 8, 32, "320GB\n", Option.none⟩

/-- Fully-up manager state: service handle set, cluster initialized,
ray and serve running. -/
def shutdownS0 : ManagerState := ⟨true, true, true, true⟩

/-- The `Uninitialized` state: nothing started. -/
def shutdownUninit : ManagerState := ⟨false, false, false, false⟩

/-! ## Helper lemmas -/

@[simp] theorem Findings.errors_append (a b : Findings) :
    (a ++ b).errors = a.errors ++ b.errors := rfl

@[simp] theorem Findings.warnings_append (a b : Findings) :
    (a ++ b).warnings = a.warnings ++ b.warnings := rfl

/-- Each interpolated number is a substring (list infix) of the rendered
GPU-mismatch message. -/
theorem gpuMismatchMsg_mentions (total pp tp e : Int) :
    (toString total).toList <:+: (gpuMismatchMsg total pp tp e).toList ∧
    (toString pp).toList <:+: (gpuMismatchMsg total pp tp e).toList ∧
    (toString tp).toList <:+: (gpuMismatchMsg total pp tp e).toList ∧
    (toString e).toList <:+: (gpuMismatchMsg total pp tp e).toList := by
  refine ⟨⟨"Total GPUs (".toList,
      (") doesn't match PP(" ++ toString pp ++ ") * TP(" ++ toString tp ++ ") = "
        ++ toString e).toList, ?_⟩,
    ⟨("Total GPUs (" ++ toString total ++ ") doesn't match PP(").toList,
      (") * TP(" ++ toString tp ++ ") = " ++ toString e).toList, ?_⟩,
    ⟨("Total GPUs (" ++ toString total ++ ") doesn't match PP(" ++ toString pp
        ++ ") * TP(").toList, (") = " ++ toString e).toList, ?_⟩,
    ⟨("Total GPUs (" ++ toString total ++ ") doesn't match PP(" ++ toString pp
        ++ ") * TP(" ++ toString tp ++ ") = ").toList, ([] : List Char), ?_⟩⟩ <;>
  simp [gpuMismatchMsg, String.toList, String.data_append]

/-- An error of the distributed check group is an error of the full run. -/
theorem mem_errors_of_distributed {cfg : ClusterConfig} {msg : String}
    (h : msg ∈ (validate_distributed_config cfg).errors) :
    msg ∈ (validateFindings cfg).errors := by
  simp only [validateFindings, Findings.errors_append, List.mem_append]
  tauto

/-- An error of the nodes check group is an error of the full run. -/
theorem mem_errors_of_nodes {cfg : ClusterConfig} {msg : String}
    (h : msg ∈ (validate_nodes_config cfg).errors) :
    msg ∈ (validateFindings cfg).errors := by
  simp only [validateFindings, Findings.errors_append, List.mem_append]
  tauto

/-- With a head node present, a repeated address yields the duplicate error. -/
theorem dup_mem_nodes_errors {cfg : ClusterConfig} {head : NodeConfig}
    (hh : cfg.head_node = some head)
    (hdup : ¬ (head.ip :: cfg.worker_nodes.map NodeConfig.ip).Nodup) :
    "Duplicate IP addresses found in node configurations"
      ∈ (validate_nodes_config cfg).errors := by
  simp only [validate_nodes_config, hh]
  simp only [Findings.errors_append, List.mem_append]
  refine Or.inl (Or.inr ?_)
  rw [if_neg hdup]
  simp [Findings.error]

/-- With a head node and both parallelism fields set to nonzero values, a
product mismatch yields the GPU-mismatch error message. -/
theorem gpuMismatch_mem_nodes_errors {cfg : ClusterConfig} {head : NodeConfig}
    {t p : Int}
    (hh : cfg.head_node = some head)
    (ht : cfg.tensor_parallel_size = some t)
    (hp : cfg.pipeline_parallel_size = some p)
    (ht0 : t ≠ 0) (hp0 : p ≠ 0)
    (hne : totalGpusOf head cfg.worker_nodes ≠ t * p) :
    gpuMismatchMsg (totalGpusOf head cfg.worker_nodes) p t (t * p)
      ∈ (validate_nodes_config cfg).errors := by
  simp only [validate_nodes_config, hh, ht, hp]
  simp only [Findings.errors_append, List.mem_append]
  refine Or.inr ?_
  rw [if_pos ⟨ht0, hp0⟩, if_pos hne]
  simp [Findings.error]

/-- Manual strategy with a missing parallelism field yields its error. -/
theorem manual_mem_distributed_errors {cfg : ClusterConfig}
    (hs : cfg.distributed_strategy = "manual")
    (hm : cfg.tensor_parallel_size = Option.none
      ∨ cfg.pipeline_parallel_size = Option.none) :
    "tensor_parallel_size and pipeline_parallel_size required for manual strategy"
      ∈ (validate_distributed_config cfg).errors := by
  simp only [validate_distributed_config]
  simp only [Findings.errors_append, List.mem_append]
  refine Or.inl (Or.inl (Or.inr ?_))
  rw [if_pos ⟨hs, hm⟩]
  simp [Findings.error]

/-- A nonpositive tensor-parallel size yields its positivity error. -/
theorem tp_nonpos_mem_distributed_errors {cfg : ClusterConfig} {t : Int}
    (ht : cfg.tensor_parallel_size = some t) (h0 : t ≤ 0) :
    "tensor_parallel_size must be positive"
      ∈ (validate_distributed_config cfg).errors := by
  simp only [validate_distributed_config, ht]
  simp only [Findings.errors_append, List.mem_append]
  refine Or.inl (Or.inr ?_)
  rw [if_pos h0]
  simp [Findings.error]

/-- A nonpositive pipeline-parallel size yields its positivity error. -/
theorem pp_nonpos_mem_distributed_errors {cfg : ClusterConfig} {p : Int}
    (hp : cfg.pipeline_parallel_size = some p) (h0 : p ≤ 0) :
    "pipeline_parallel_size must be positive"
      ∈ (validate_distributed_config cfg).errors := by
  simp only [validate_distributed_config, hp]
  simp only [Findings.errors_append, List.mem_append]
  refine Or.inr ?_
  rw [if_pos h0]
  simp [Findings.error]

/-- A rejected address yields the invalid-address error in the node check. -/
theorem invalidIp_mem_node_errors {node : NodeConfig} {name : String}
    (h : is_valid_ip node.ip = false) :
    invalidIpMsg name node.ip ∈ (validate_node_config node name).errors := by
  simp only [validate_node_config]
  simp only [Findings.errors_append, List.mem_append]
  refine Or.inl (Or.inl (Or.inl (Or.inl ?_)))
  rw [h]
  simp [Findings.error]

/-- Without a head node the node check group stops at its first error. -/
theorem nodes_errors_of_no_head {cfg : ClusterConfig}
    (hh : cfg.head_node = Option.none) :
    (validate_nodes_config cfg).errors = ["Head node configuration is required"] := by
  simp [validate_nodes_config, hh, Findings.error]

/-- On a uniform topology the total GPU count factors through the node
count. -/
theorem uniform_sum {head : NodeConfig} {ws : List NodeConfig}
    (h : ∀ w ∈ ws, w.gpus = head.gpus) :
    totalGpusOf head ws = (1 + (ws.length : Int)) * head.gpus := by
  have hsum : (ws.map NodeConfig.gpus).sum = (ws.length : Int) * head.gpus := by
    induction ws with
    | nil => simp
    | cons w ws ih =>
      simp only [List.map_cons, List.sum_cons, List.length_cons]
      rw [h w (by simp), ih (fun x hx => h x (by simp [hx]))]
      push_cast
      ring
  simp only [totalGpusOf, hsum]
  ring

/-- On a uniform topology `totalNodes * (totalGPUs fdiv totalNodes)` is
exactly `totalGPUs`. -/
theorem uniform_product {head : NodeConfig} {ws : List NodeConfig}
    (h : ∀ w ∈ ws, w.gpus = head.gpus) :
    (1 + (ws.length : Int))
        * Int.fdiv (totalGpusOf head ws) (1 + (ws.length : Int))
      = totalGpusOf head ws := by
  have hn : (1 + (ws.length : Int)) ≠ 0 := by positivity
  rw [uniform_sum h, Int.mul_fdiv_cancel_left _ hn]

/-- Closed form of `_calculate_optimal_parallelism`: the fallback
recomputation returns the same quotient, so only the warning flag depends
on the uniformity test. -/
theorem calc_opt_eq (n g : Int) :
    calculate_optimal_parallelism n g
      = (n, Int.fdiv g n, decide (n * Int.fdiv g n ≠ g)) := by
  simp only [calculate_optimal_parallelism]
  by_cases hc : n * Int.fdiv g n = g
  · rw [if_neg (by simpa using hc)]
    simp [hc]
  · rw [if_pos (by simpa using hc)]
    simp [hc]

/-- Characterization of `_auto_configure_distributed` with a head node:
supplied fields stay, unset fields are filled with the auto-computed
values, and the warning flag marks a non-exact product. -/
theorem auto_configure_char (cfg : ClusterConfig) (head : NodeConfig)
    (hh : cfg.head_node = some head) :
    (∀ t, cfg.tensor_parallel_size = some t →
      (auto_configure_distributed cfg).1.tensor_parallel_size = some t) ∧
    (∀ p, cfg.pipeline_parallel_size = some p →
      (auto_configure_distributed cfg).1.pipeline_parallel_size = some p) ∧
    (cfg.tensor_parallel_size = Option.none →
      (auto_configure_distributed cfg).1.tensor_parallel_size
        = some (Int.fdiv (totalGpusOf head cfg.worker_nodes)
            (1 + (cfg.worker_nodes.length : Int)))) ∧
    (cfg.pipeline_parallel_size = Option.none →
      (auto_configure_distributed cfg).1.pipeline_parallel_size
        = some (1 + (cfg.worker_nodes.length : Int))) ∧
    ((auto_configure_distributed cfg).2 = true ↔
      (1 + (cfg.worker_nodes.length : Int))
          * Int.fdiv (totalGpusOf head cfg.worker_nodes)
              (1 + (cfg.worker_nodes.length : Int))
        ≠ totalGpusOf head cfg.worker_nodes) := by
  simp only [auto_configure_distributed, hh, calc_opt_eq]
  by_cases ht : cfg.tensor_parallel_size = Option.none <;>
    by_cases hp : cfg.pipeline_parallel_size = Option.none <;>
    simp_all

/-- The append loop of `scale_cluster` on complete dicts appends them all. -/
theorem scaleLoop_complete :
    ∀ (ds : List NodeDict) (cfg : ClusterConfig), (∀ d ∈ ds, d.complete) →
      scaleLoop cfg ds
        = ({ cfg with worker_nodes := cfg.worker_nodes ++ ds.map NodeDict.toNodeConfig },
           true)
  | [], cfg, _ => by simp [scaleLoop]
  | d :: ds, cfg, hc => by
    obtain ⟨hip, hg, hcp, hm⟩ := hc d (by simp)
    obtain ⟨ip, hip⟩ := Option.ne_none_iff_exists'.mp hip
    obtain ⟨g, hg⟩ := Option.ne_none_iff_exists'.mp hg
    obtain ⟨cp, hcp⟩ := Option.ne_none_iff_exists'.mp hcp
    obtain ⟨m, hm⟩ := Option.ne_none_iff_exists'.mp hm
    rw [scaleLoop, hip, hg, hcp, hm]
    dsimp only
    rw [scaleLoop_complete ds _ (fun x hx => hc x (by simp [hx]))]
    simp [NodeDict.toNodeConfig, hip, hg, hcp, hm]

/-- `_is_valid_ip` accepts exactly the four-part dotted addresses whose
parts are Python integers in `[0, 255]`. -/
theorem is_valid_ip_iff (ip : String) :
    is_valid_ip ip = true ↔
      ((splitOnChar '.' ip.toList).length = 4 ∧
        ∀ part ∈ splitOnChar '.' ip.toList,
          ∃ n : Int, pyIntList part = some n ∧ 0 ≤ n ∧ n ≤ 255) := by
  simp only [is_valid_ip]
  by_cases hl : (splitOnChar '.' ip.toList).length = 4
  · rw [if_neg (by simpa using hl)]
    simp only [hl, true_and, List.all_eq_true]
    constructor
    · intro h part hp
      have := h part hp
      cases hpi : pyIntList part with
      | none => simp [hpi] at this
      | some n =>
        refine ⟨n, rfl, ?_⟩
        simp [hpi, Bool.and_eq_true, decide_eq_true_eq] at this
        exact this
    · intro h part hp
      obtain ⟨n, hn, h0, h255⟩ := h part hp
      simp [hn, h0, h255]
  · rw [if_pos (by simpa using hl)]
    constructor
    · intro h
      exact absurd h (by simp)
    · rintro ⟨h4, _⟩
      exact absurd h4 hl

/-- The memory regex accepts exactly a nonempty digit string followed by
the literal `GB`. -/
theorem memFormatMatch_iff (s : String) :
    memFormatMatch s = true ↔
      ∃ ds : List Char, ds ≠ [] ∧ ds.all Char.isDigit ∧ s.toList = ds ++ ['G', 'B'] := by
  simp only [memFormatMatch, Bool.and_eq_true, decide_eq_true_eq]
  constructor
  · rintro ⟨⟨h3, hdig⟩, hgb⟩
    refine ⟨s.toList.take (s.toList.length - 2), ?_, hdig, ?_⟩
    · have hpos : 0 < (s.toList.take (s.toList.length - 2)).length := by
        rw [List.length_take]
        omega
      exact List.length_pos.mp hpos
    · conv_lhs => rw [← List.take_append_drop (s.toList.length - 2) s.toList]
      rw [hgb]
  · rintro ⟨ds, hne, hdig, hsl⟩
    have hdslen : 1 ≤ ds.length := List.length_pos.mpr hne
    have h2 : (ds ++ ['G', 'B']).length - 2 = ds.length := by simp
    refine ⟨⟨?_, ?_⟩, ?_⟩
    · rw [hsl]
      simp only [List.length_append, List.length_cons, List.length_nil]
      omega
    · rw [hsl, h2, List.take_left]
      exact hdig
    · rw [hsl, h2, List.drop_left]

/-- `memFormatMatch` is its list-level core. -/
theorem memFormatMatch_eq_core (s : String) :
    memFormatMatch s = memFormatCore s.toList := rfl

/-- `pyMemFormatMatch` accepts exactly a nonempty digit string followed by
`GB`, with or without one trailing newline — the strings Python's
`re.match(r'^\d+GB$', ·)` accepts. -/
theorem pyMemFormatMatch_iff (s : String) :
    pyMemFormatMatch s = true ↔
      ∃ ds : List Char, ds ≠ [] ∧ ds.all Char.isDigit ∧
        (s.toList = ds ++ ['G', 'B'] ∨ s.toList = ds ++ ['G', 'B', '\n']) := by
  have hcore : ∀ cs : List Char, memFormatCore cs = true ↔
      ∃ ds : List Char, ds ≠ [] ∧ ds.all Char.isDigit ∧ cs = ds ++ ['G', 'B'] := by
    intro cs
    simp only [memFormatCore, Bool.and_eq_true, decide_eq_true_eq]
    constructor
    · rintro ⟨⟨h3, hdig⟩, hgb⟩
      refine ⟨cs.take (cs.length - 2), ?_, hdig, ?_⟩
      · have hpos : 0 < (cs.take (cs.length - 2)).length := by
          rw [List.length_take]
          omega
        exact List.length_pos.mp hpos
      · conv_lhs => rw [← List.take_append_drop (cs.length - 2) cs]
        rw [hgb]
    · rintro ⟨ds, hne, hdig, hsl⟩
      have hdslen : 1 ≤ ds.length := List.length_pos.mpr hne
      have h2 : (ds ++ ['G', 'B']).length - 2 = ds.length := by simp
      refine ⟨⟨?_, ?_⟩, ?_⟩
      · rw [hsl]
        simp only [List.length_append, List.length_cons, List.length_nil]
        omega
      · rw [hsl, h2, List.take_left]
        exact hdig
      · rw [hsl, h2, List.drop_left]
  simp only [pyMemFormatMatch, Bool.or_eq_true, Bool.and_eq_true, decide_eq_true_eq,
    hcore]
  constructor
  · rintro (⟨ds, h1, h2, h3⟩ | ⟨hlast, ds, h1, h2, h3⟩)
    · exact ⟨ds, h1, h2, Or.inl h3⟩
    · refine ⟨ds, h1, h2, Or.inr ?_⟩
      have hne : s.toList ≠ [] := by
        intro h0
        rw [h0] at hlast
        simp at hlast
      have hsplit := List.dropLast_append_getLast hne
      have hgl : s.toList.getLast hne = '\n' := by
        have := List.getLast?_eq_getLast s.toList hne
        rw [this] at hlast
        exact Option.some.inj hlast
      rw [← hsplit, h3, hgl]
      simp
  · rintro ⟨ds, h1, h2, h3 | h3⟩
    · exact Or.inl ⟨ds, h1, h2, h3⟩
    · refine Or.inr ⟨?_, ds, h1, h2, ?_⟩
      · rw [h3, show ds ++ ['G', 'B', '\n'] = (ds ++ ['G', 'B']) ++ ['\n'] by simp]
        exact List.getLast?_concat _
      · rw [h3, show ds ++ ['G', 'B', '\n'] = (ds ++ ['G', 'B']) ++ ['\n'] by simp]
        rw [List.dropLast_concat]

/-! ## Claim theorems -/

/-- C1, counterexample: `cfgOkBase` validates cleanly, and the topology
merged with `dupDict` fails validation (duplicate address), yet
`scale_cluster` reports success and both the worker list and the pipeline
size have changed — refuting the claim that a validation failure of the
prospective merged topology returns an error and leaves the stored
topology unchanged. -/
theorem scale_no_validation_cex :
    (ConfigValidator.validate ⟨[], []⟩ cfgOkBase).2 = true ∧
    (ConfigValidator.validate ⟨[], []⟩ (scale_cluster cfgOkBase [dupDict]).1).2 = false ∧
    "Duplicate IP addresses found in node configurations"
      ∈ (validateFindings (scale_cluster cfgOkBase [dupDict]).1).errors ∧
    (scale_cluster cfgOkBase [dupDict]).2 = true ∧
    (scale_cluster cfgOkBase [dupDict]).1.worker_nodes ≠ cfgOkBase.worker_nodes ∧
    (scale_cluster cfgOkBase [dupDict]).1.pipeline_parallel_size
      ≠ cfgOkBase.pipeline_parallel_size := by decide

/-- C1, amended: `scale_cluster` performs no prospective validation.  With
a head node present and well-formed node dicts it unconditionally appends
every new node, under auto strategy overwrites the parallelism plan with
`PP = totalNodes` and `TP = totalGPUs fdiv totalNodes`, and returns
success — regardless of whether the merged topology would pass
validation; under a non-auto strategy the plan fields are untouched. -/
theorem scale_cluster_amended (cfg : ClusterConfig) (head : NodeConfig)
    (ds : List NodeDict)
    (hh : cfg.head_node = some head)
    (hc : ∀ d ∈ ds, d.complete) :
    (scale_cluster cfg ds).2 = true ∧
    (scale_cluster cfg ds).1.worker_nodes
      = cfg.worker_nodes ++ ds.map NodeDict.toNodeConfig ∧
    (cfg.distributed_strategy = "auto" →
      (scale_cluster cfg ds).1.pipeline_parallel_size
        = some (1 + ((cfg.worker_nodes ++ ds.map NodeDict.toNodeConfig).length : Int)) ∧
      (scale_cluster cfg ds).1.tensor_parallel_size
        = some (Int.fdiv
            (totalGpusOf head (cfg.worker_nodes ++ ds.map NodeDict.toNodeConfig))
            (1 + ((cfg.worker_nodes ++ ds.map NodeDict.toNodeConfig).length : Int)))) ∧
    (cfg.distributed_strategy ≠ "auto" →
      (scale_cluster cfg ds).1.pipeline_parallel_size = cfg.pipeline_parallel_size ∧
      (scale_cluster cfg ds).1.tensor_parallel_size = cfg.tensor_parallel_size) := by
  simp only [scale_cluster, scaleLoop_complete ds cfg hc]
  by_cases hs : cfg.distributed_strategy = "auto" <;> simp_all [hh]

/-- C1, witness: the amended theorem applied to `cfgOkBase` and the
complete dict `freshDict`. -/
theorem scale_cluster_amended_witness :
    (scale_cluster cfgOkBase [freshDict]).2 = true ∧
    (scale_cluster cfgOkBase [freshDict]).1.worker_nodes
      = cfgOkBase.worker_nodes ++ [freshDict].map NodeDict.toNodeConfig := by
  have h := scale_cluster_amended cfgOkBase headOk [freshDict] rfl (by decide)
  exact ⟨h.1, h.2.1⟩

/-- C2: with one head node, auto strategy and neither parallelism field
set, the resolver fills `PP = totalNodes` and
`TP = totalGPUs fdiv totalNodes`; with uniform per-node GPU counts the
product is exactly `totalGPUs` and no non-uniform warning is flagged;
when the product differs, `TP` is the recomputed `totalGPUs fdiv PP` and
the non-uniform warning is flagged. -/
theorem auto_parallelism_spec (cfg : ClusterConfig) (head : NodeConfig)
    (hh : cfg.head_node = some head)
    (_hs : cfg.distributed_strategy = "auto")
    (ht : cfg.tensor_parallel_size = Option.none)
    (hp : cfg.pipeline_parallel_size = Option.none) :
    ((auto_configure_distributed cfg).1.pipeline_parallel_size
        = some (1 + (cfg.worker_nodes.length : Int)) ∧
     (auto_configure_distributed cfg).1.tensor_parallel_size
        = some (Int.fdiv (totalGpusOf head cfg.worker_nodes)
            (1 + (cfg.worker_nodes.length : Int)))) ∧
    ((∀ w ∈ cfg.worker_nodes, w.gpus = head.gpus) →
      (1 + (cfg.worker_nodes.length : Int))
          * Int.fdiv (totalGpusOf head cfg.worker_nodes)
              (1 + (cfg.worker_nodes.length : Int))
        = totalGpusOf head cfg.worker_nodes ∧
      (auto_configure_distributed cfg).2 = false) ∧
    ((1 + (cfg.worker_nodes.length : Int))
          * Int.fdiv (totalGpusOf head cfg.worker_nodes)
              (1 + (cfg.worker_nodes.length : Int))
        ≠ totalGpusOf head cfg.worker_nodes →
      (auto_configure_distributed cfg).1.tensor_parallel_size
        = some (Int.fdiv (totalGpusOf head cfg.worker_nodes)
            (1 + (cfg.worker_nodes.length : Int))) ∧
      (auto_configure_distributed cfg).2 = true) := by
  obtain ⟨_, _, hfillT, hfillP, hflag⟩ := auto_configure_char cfg head hh
  refine ⟨⟨hfillP hp, hfillT ht⟩, ?_, ?_⟩
  · intro hunif
    have hprod := uniform_product hunif
    refine ⟨hprod, ?_⟩
    have hne : (auto_configure_distributed cfg).2 ≠ true := fun hfl => (hflag.mp hfl) hprod
    exact Bool.eq_false_iff.mpr hne
  · intro hne
    exact ⟨hfillT ht, hflag.mpr hne⟩

/-- C2, witness: the theorem applied to the uniform two-node topology
`cfgC2w` (8 + 8 GPUs). -/
theorem auto_parallelism_spec_witness :
    (auto_configure_distributed cfgC2w).1.pipeline_parallel_size
        = some (1 + (cfgC2w.worker_nodes.length : Int)) ∧
    (1 + (cfgC2w.worker_nodes.length : Int))
        * Int.fdiv (totalGpusOf headC2 cfgC2w.worker_nodes)
            (1 + (cfgC2w.worker_nodes.length : Int))
      = totalGpusOf headC2 cfgC2w.worker_nodes ∧
    (auto_configure_distributed cfgC2w).2 = false := by
  have h := auto_parallelism_spec cfgC2w headC2 rfl rfl rfl rfl
  have h2 := h.2.1 (by decide)
  exact ⟨h.1.1, h2.1, h2.2⟩

/-- C3, counterexample: on `cfgC3` (12 GPUs over 3 nodes,
`pipeline_parallel_size = 2` supplied, tensor unset) the resolver fills
`tensor_parallel_size = 4` — the topology-derived `12 fdiv 3` — not the
`12 fdiv 2 = 6` the claim says it re-derives from the supplied value. -/
theorem resolver_partial_override_cex :
    cfgC3.pipeline_parallel_size = some 2 ∧
    cfgC3.tensor_parallel_size = Option.none ∧
    totalGpusOf headC3 cfgC3.worker_nodes = 12 ∧
    Int.fdiv (totalGpusOf headC3 cfgC3.worker_nodes) 2 = 6 ∧
    (auto_configure_distributed cfgC3).1.tensor_parallel_size = some 4 ∧
    (4 : Int) ≠ 6 := by decide

/-- C3, amended: the resolver never overwrites a supplied field, but it
fills an unset field with the auto-computed value (`PP = totalNodes`,
`TP = totalGPUs fdiv totalNodes`) derived from the topology alone,
ignoring the supplied value of the other field, and never leaves it
unset when a head node exists. -/
theorem resolver_partial_override_amended (cfg : ClusterConfig) (head : NodeConfig)
    (hh : cfg.head_node = some head) :
    (∀ t, cfg.tensor_parallel_size = some t →
      (auto_configure_distributed cfg).1.tensor_parallel_size = some t) ∧
    (∀ p, cfg.pipeline_parallel_size = some p →
      (auto_configure_distributed cfg).1.pipeline_parallel_size = some p) ∧
    (cfg.tensor_parallel_size = Option.none →
      (auto_configure_distributed cfg).1.tensor_parallel_size
        = some (Int.fdiv (totalGpusOf head cfg.worker_nodes)
            (1 + (cfg.worker_nodes.length : Int)))) ∧
    (cfg.pipeline_parallel_size = Option.none →
      (auto_configure_distributed cfg).1.pipeline_parallel_size
        = some (1 + (cfg.worker_nodes.length : Int))) := by
  obtain ⟨h1, h2, h3, h4, _⟩ := auto_configure_char cfg head hh
  exact ⟨h1, h2, h3, h4⟩

/-- C3, witness: the amended theorem applied to `cfgC3`. -/
theorem resolver_partial_override_amended_witness :
    (auto_configure_distributed cfgC3).1.pipeline_parallel_size = some 2 ∧
    (auto_configure_distributed cfgC3).1.tensor_parallel_size
      = some (Int.fdiv (totalGpusOf headC3 cfgC3.worker_nodes)
          (1 + (cfgC3.worker_nodes.length : Int))) := by
  have h := resolver_partial_override_amended cfgC3 headC3 rfl
  exact ⟨h.2.1 2 rfl, h.2.2.1 rfl⟩

/-- C4: the validator's verdict is `true` exactly when the run produced
zero error findings, whatever the warnings are. -/
theorem valid_iff_no_errors (v : ConfigValidator) (cfg : ClusterConfig) :
    (v.validate cfg).2 = true ↔ ((v.validate cfg).1).errors = [] := by
  simp [ConfigValidator.validate, List.length_eq_zero]

/-- C5, counterexample: `cfgC5` has two workers with the same address and
a GPU-count mismatch, but no head node — the validator stops the node
group at the head-required error, so neither the duplicate-address error
nor the GPU-count error is reported, refuting the claim that every check
runs after an earlier fatal finding. -/
theorem all_checks_run_cex :
    cfgC5.worker_nodes.map NodeConfig.ip = ["1.1.1.1", "1.1.1.1"] ∧
    ¬ (cfgC5.worker_nodes.map NodeConfig.ip).Nodup ∧
    cfgC5.tensor_parallel_size = some 2 ∧
    cfgC5.pipeline_parallel_size = some 2 ∧
    (cfgC5.worker_nodes.map NodeConfig.gpus).sum = 16 ∧
    (validateFindings cfgC5).errors = ["Head node configuration is required"] := by decide

/-- C5, amended: with a head node present, a duplicate address produces
the duplicate-address error and the GPU-count check still runs and
reports a mismatch; but when the head node is missing, the node group
stops after the head-required error, skipping the duplicate and GPU
checks. -/
theorem all_checks_run_amended (cfg : ClusterConfig) :
    (∀ head, cfg.head_node = some head →
      (¬ (head.ip :: cfg.worker_nodes.map NodeConfig.ip).Nodup →
        "Duplicate IP addresses found in node configurations"
          ∈ (validateFindings cfg).errors) ∧
      (∀ t p, cfg.tensor_parallel_size = some t →
        cfg.pipeline_parallel_size = some p → t ≠ 0 → p ≠ 0 →
        totalGpusOf head cfg.worker_nodes ≠ t * p →
        gpuMismatchMsg (totalGpusOf head cfg.worker_nodes) p t (t * p)
          ∈ (validateFindings cfg).errors)) ∧
    (cfg.head_node = Option.none →
      (validate_nodes_config cfg).errors = ["Head node configuration is required"]) := by
  refine ⟨fun head hh => ⟨fun hdup => mem_errors_of_nodes (dup_mem_nodes_errors hh hdup),
    fun t p ht hp ht0 hp0 hne =>
      mem_errors_of_nodes (gpuMismatch_mem_nodes_errors hh ht hp ht0 hp0 hne)⟩,
    nodes_errors_of_no_head⟩

/-- C5, witness: on `cfgC5w` (head present, duplicate address, GPU
mismatch) both errors are reported in one pass. -/
theorem all_checks_run_amended_witness :
    "Duplicate IP addresses found in node configurations"
      ∈ (validateFindings cfgC5w).errors ∧
    gpuMismatchMsg (totalGpusOf headC5w cfgC5w.worker_nodes) 2 2 (2 * 2)
      ∈ (validateFindings cfgC5w).errors := by
  have h := (all_checks_run_amended cfgC5w).1 headC5w rfl
  exact ⟨h.1 (by decide), h.2 2 2 rfl rfl (by decide) (by decide) (by decide)⟩

/-- C6, counterexample: on `cfgC6a` both parallelism fields are set,
`0 * 5` differs from the 8 GPUs present, yet the only error is the
positivity error (Python truthiness skips the mismatch check for 0) and
no message mentions the actual GPU total; on `cfgC6b` both fields are set
and mismatched but the head node is missing, and again no mismatch error
with the numbers is produced. -/
theorem gpu_mismatch_cex :
    (cfgC6a.tensor_parallel_size = some 0 ∧
     cfgC6a.pipeline_parallel_size = some 5 ∧
     totalGpusOf headOk cfgC6a.worker_nodes = 8 ∧
     (0 : Int) * 5 ≠ 8 ∧
     (validateFindings cfgC6a).errors = ["tensor_parallel_size must be positive"] ∧
     ¬ (toString (8 : Int)).toList
        <:+: "tensor_parallel_size must be positive".toList) ∧
    (cfgC6b.tensor_parallel_size = some 2 ∧
     cfgC6b.pipeline_parallel_size = some 2 ∧
     (cfgC6b.worker_nodes.map NodeConfig.gpus).sum = 3 ∧
     (2 : Int) * 2 ≠ 3 ∧
     (validateFindings cfgC6b).errors = ["Head node configuration is required"]) := by
  decide

/-- C6, amended: with a head node present and both parallelism fields set
to nonzero values, a product different from the total GPU count yields a
fatal error whose message contains the pipeline size, the tensor size,
their product and the actual total as literal numbers; Manual strategy
with a missing field is a fatal error, and each nonpositive set field is
a fatal error. -/
theorem gpu_mismatch_amended (cfg : ClusterConfig) :
    (∀ head t p, cfg.head_node = some head →
      cfg.tensor_parallel_size = some t →
      cfg.pipeline_parallel_size = some p → t ≠ 0 → p ≠ 0 →
      totalGpusOf head cfg.worker_nodes ≠ t * p →
      gpuMismatchMsg (totalGpusOf head cfg.worker_nodes) p t (t * p)
          ∈ (validateFindings cfg).errors ∧
        (toString (totalGpusOf head cfg.worker_nodes)).toList
          <:+: (gpuMismatchMsg (totalGpusOf head cfg.worker_nodes) p t (t * p)).toList ∧
        (toString p).toList
          <:+: (gpuMismatchMsg (totalGpusOf head cfg.worker_nodes) p t (t * p)).toList ∧
        (toString t).toList
          <:+: (gpuMismatchMsg (totalGpusOf head cfg.worker_nodes) p t (t * p)).toList ∧
        (toString (t * p)).toList
          <:+: (gpuMismatchMsg (totalGpusOf head cfg.worker_nodes) p t (t * p)).toList) ∧
    (cfg.distributed_strategy = "manual" →
      (cfg.tensor_parallel_size = Option.none
        ∨ cfg.pipeline_parallel_size = Option.none) →
      "tensor_parallel_size and pipeline_parallel_size required for manual strategy"
        ∈ (validateFindings cfg).errors) ∧
    (∀ t, cfg.tensor_parallel_size = some t → t ≤ 0 →
      "tensor_parallel_size must be positive" ∈ (validateFindings cfg).errors) ∧
    (∀ p, cfg.pipeline_parallel_size = some p → p ≤ 0 →
      "pipeline_parallel_size must be positive" ∈ (validateFindings cfg).errors) := by
  refine ⟨fun head t p hh ht hp ht0 hp0 hne => ?_,
    fun hs hm => mem_errors_of_distributed (manual_mem_distributed_errors hs hm),
    fun t ht h0 => mem_errors_of_distributed (tp_nonpos_mem_distributed_errors ht h0),
    fun p hp h0 => mem_errors_of_distributed (pp_nonpos_mem_distributed_errors hp h0)⟩
  obtain ⟨m1, m2, m3, m4⟩ :=
    gpuMismatchMsg_mentions (totalGpusOf head cfg.worker_nodes) p t (t * p)
  exact ⟨mem_errors_of_nodes (gpuMismatch_mem_nodes_errors hh ht hp ht0 hp0 hne),
    m1, m2, m3, m4⟩

/-- C6, witness: the spec's own example — Manual strategy with
`pipeline = 3, tensor = 4` on a topology totalling 10 GPUs — yields the
mismatch message, which mentions the product `12`. -/
theorem gpu_mismatch_amended_witness :
    cfgC6w.distributed_strategy = "manual" ∧
    totalGpusOf headC6w cfgC6w.worker_nodes = 10 ∧
    gpuMismatchMsg (totalGpusOf headC6w cfgC6w.worker_nodes) 3 4 (4 * 3)
      ∈ (validateFindings cfgC6w).errors ∧
    (toString ((4 : Int) * 3)).toList
      <:+: (gpuMismatchMsg (totalGpusOf headC6w cfgC6w.worker_nodes) 3 4 (4 * 3)).toList := by
  have h := (gpu_mismatch_amended cfgC6w).1 headC6w 4 3 rfl rfl rfl
    (by decide) (by decide) (by decide)
  exact ⟨rfl, by decide, h.1, h.2.2.2.2⟩

/-- C7, counterexample: from the fully-up state, a failing
`serve.shutdown()` aborts the whole teardown — `ray.shutdown()` never
runs (ray stays up) and the state never reaches the terminal Shutdown
shape — refuting the claim that a failure in one teardown step does not
prevent the other from running. -/
theorem shutdown_teardown_cex :
    shutdownS0.service_handle = true ∧ shutdownS0.ray_up = true ∧
    (shutdown shutdownS0 true false).ray_up = true ∧
    (shutdown shutdownS0 true false).cluster_initialized = true ∧
    (shutdown shutdownS0 true false).serve_up = true := by decide

/-- C7, amended: `shutdown` never raises, and when no teardown call
fails it converges to the terminal Shutdown state from any state
(including Uninitialized) and is idempotent; but a failing serve
teardown with a service handle present leaves the state entirely
unchanged, and a failing ray teardown skips the flag resets. -/
theorem shutdown_amended (s : ManagerState) :
    ((shutdown s false false).cluster_initialized = false ∧
     (shutdown s false false).service_handle = false ∧
     (shutdown s false false).ray_up = false) ∧
    shutdown (shutdown s false false) false false = shutdown s false false ∧
    (s.service_handle = true → ∀ rayFails : Bool, shutdown s true rayFails = s) ∧
    (s.service_handle = false → s.ray_up = true →
      (shutdown s false true).ray_up = true ∧
      (shutdown s false true).cluster_initialized = s.cluster_initialized) := by
  obtain ⟨a, b, c, d⟩ := s
  revert a b c d
  decide

/-- C7, witness: the amended theorem applied to the fully-up state (serve
teardown failing) and to the Uninitialized state. -/
theorem shutdown_amended_witness :
    (shutdown shutdownS0 true false = shutdownS0) ∧
    (shutdown shutdownUninit false false).cluster_initialized = false := by
  exact ⟨(shutdown_amended shutdownS0).2.2.1 rfl false,
    (shutdown_amended shutdownUninit).1.1⟩

/-- C8, counterexample: the resolvable host names `localhost` and
`my-node.example.com` are rejected by `_is_valid_ip`, and a head node
addressed `localhost` makes validation fail with an invalid-address
error — refuting the claim that host-name forms are accepted. -/
theorem ip_hostname_cex :
    is_valid_ip "localhost" = false ∧
    is_valid_ip "my-node.example.com" = false ∧
    invalidIpMsg "head" "localhost" ∈ (validateFindings cfgC8).errors ∧
    (ConfigValidator.validate ⟨[], []⟩ cfgC8).2 = false := by decide

/-- C8, amended: the validator accepts exactly dotted-quad addresses
(four dot-separated parts, each a Python integer in `[0, 255]`); every
other address — host names included — is a fatal error, and a repeated
address across the topology is a fatal error. -/
theorem address_validation_amended :
    (∀ ip : String, is_valid_ip ip = true ↔
      ((splitOnChar '.' ip.toList).length = 4 ∧
        ∀ part ∈ splitOnChar '.' ip.toList,
          ∃ n : Int, pyIntList part = some n ∧ 0 ≤ n ∧ n ≤ 255)) ∧
    (∀ (node : NodeConfig) (name : String), is_valid_ip node.ip = false →
      invalidIpMsg name node.ip ∈ (validate_node_config node name).errors) ∧
    (∀ (cfg : ClusterConfig) (head : NodeConfig), cfg.head_node = some head →
      ¬ (head.ip :: cfg.worker_nodes.map NodeConfig.ip).Nodup →
      "Duplicate IP addresses found in node configurations"
        ∈ (validateFindings cfg).errors) := by
  exact ⟨is_valid_ip_iff,
    fun node name h => invalidIp_mem_node_errors h,
    fun cfg head hh hdup => mem_errors_of_nodes (dup_mem_nodes_errors hh hdup)⟩

/-- C8, witness: the amended theorem applied to the host-name head
`headC8` and to the dotted-quad `192.168.1.1`. -/
theorem address_validation_amended_witness :
    invalidIpMsg "head" "localhost" ∈ (validate_node_config headC8 "head").errors ∧
    is_valid_ip "192.168.1.1" = true := by
  refine ⟨address_validation_amended.2.1 headC8 "head" (by decide), ?_⟩
  refine (address_validation_amended.1 "192.168.1.1").mpr ⟨by decide, ?_⟩
  intro part hp
  fin_cases hp
  · exact ⟨192, by decide, by decide, by decide⟩
  · exact ⟨168, by decide, by decide, by decide⟩
  · exact ⟨1, by decide, by decide, by decide⟩
  · exact ⟨1, by decide, by decide, by decide⟩

/-- C9: running `validate` a second time on the same instance and input
returns exactly the same verdict and the same error and warning lists,
because the method resets both lists before checking. -/
theorem validator_idempotent (v : ConfigValidator) (cfg : ClusterConfig) :
    ((v.validate cfg).1).validate cfg = v.validate cfg := rfl

/-- C10, the code bug at the failing input `memory = "320GB\n"`: the
string is not an exact digit-string-plus-`GB` form, so the claim demands
the fatal format error; but the real regex accepts it (Python's `$`
matches before the trailing newline) and `int("320G")` then raises an
uncaught `ValueError` — `memory_check_py` raises instead of producing any
finding, and the exception propagates out of `validate` uncaught.  On
inputs without a trailing newline the faithful block behaves as the claim
says: `320GiB` gets the fatal format error and `16GB` only the
low-memory warning. -/
theorem memory_newline_bug :
    memFormatMatch nodeNL.memory = false ∧
    pyMemFormatMatch nodeNL.memory = true ∧
    memory_check_py nodeNL "head" = Except.error () ∧
    memory_check_py nodeGiB "head"
      = Except.ok (Findings.error (memFormatMsg "head")) ∧
    memory_check_py node16 "head"
      = Except.ok (Findings.warning (lowMemMsg "head" 16)) ∧
    memory_check nodeNL "head" = Findings.error (memFormatMsg "head") := by
  exact ⟨rfl, rfl, rfl, rfl, rfl, rfl⟩

end VllmCluster
